import Mathlib

/-!
Lever firmware: error detection and recovery.

A shallow embedding of `LeverFirmware/src/error/ErrorHandler.h` and `ErrorHandler.cpp`.

* The four private fields of the class become the structure `ErrorHandler`; every member
  function takes the object and returns the updated object (with the C++ return value
  in front when there is one).
* The clock `millis()` is an input: each operation receives the reading of the
  millisecond clock for that call as the argument `millis`.  An `unsigned long` is 32 bits
  wide; its values are kept as `Nat` and reduced modulo `2 ^ 32` explicitly.
* Values of type `int` are `Int`.  The width of `int` differs between the boards the
  firmware targets and is the parameter `intBits`.  The two `int` operations of the
  file, the subtraction in `checkCalibrationData` and the increment of a counter of
  `_errorCounts` in `setError`, are wrapped to that width, as the compiled code does:
  incrementing a counter that holds `INT_MAX` gives `INT_MIN`.
* The two function-local `static` variables of `checkButtonStuck` live outside the
  object; they are the structure `ButtonStatics`.
* Output on `Serial` is not modelled.
-/

namespace LeverFirmware

/-! ## Machine integers -/

/-- Number of values of an `unsigned long` (32 bits). -/
def ULONG_MOD : Nat := 4294967296

/-- Conversion of a natural number to `unsigned long`. -/
def toULong (n : Nat) : Nat := n % ULONG_MOD

/-- Subtraction of two `unsigned long` values, wrapping around. -/
def subULong (a b : Nat) : Nat := (toULong a + ULONG_MOD - toULong b) % ULONG_MOD

/-- Smallest value of an `int` that is `intBits` wide. -/
def intMin (intBits : Nat) : Int := -((2 : Int) ^ (intBits - 1))

/-- Largest value of an `int` that is `intBits` wide. -/
def intMax (intBits : Nat) : Int := (2 : Int) ^ (intBits - 1) - 1

/-- Two-complement wrap of an integer to an `int` that is `intBits` wide. -/
def wrapInt (intBits : Nat) (x : Int) : Int :=
  (x - intMin intBits) % ((2 : Int) ^ intBits) + intMin intBits

/-- Subtraction of two `int` values; the result is wrapped to the width of `int`. -/
def subInt (intBits : Nat) (a b : Int) : Int := wrapInt intBits (a - b)

/-- The increment `x++` of an `int`; the result is wrapped to the width of `int`, so that
the increment of `INT_MAX` gives `INT_MIN`. -/
def incInt (intBits : Nat) (x : Int) : Int := wrapInt intBits (x + 1)

/-! ## Data model -/

/-- The enumeration `ErrorHandler::ErrorCode`. -/
inductive ErrorCode where
  | NO_ERROR
  | SENSOR_ERROR
  | CALIBRATION_ERROR
  | BUTTON_ERROR
  | COMMUNICATION_ERROR
  | MEMORY_ERROR
  | SYSTEM_ERROR
  deriving DecidableEq

/-- The integer value of each enumerator, as declared in `ErrorHandler.h`; it is the index
used for `_errorCounts[code]`. -/
def ErrorCode.toNat : ErrorCode → Nat
  | .NO_ERROR => 0
  | .SENSOR_ERROR => 1
  | .CALIBRATION_ERROR => 2
  | .BUTTON_ERROR => 3
  | .COMMUNICATION_ERROR => 4
  | .MEMORY_ERROR => 5
  | .SYSTEM_ERROR => 99

/-- The private fields of class `ErrorHandler`.  The field `_errorCounts` is the array
`int _errorCounts[100]`. -/
structure ErrorHandler where
  _currentError : ErrorCode
  _errorStartTime : Nat
  _errorCounts : List Int
  _inRecovery : Bool
  deriving DecidableEq

/-- The function-local statics of `checkButtonStuck`. -/
structure ButtonStatics where
  lastButtonState : Bool
  buttonPressStartTime : Nat
  deriving DecidableEq

/-- Initial values of the statics of `checkButtonStuck`: `false` and `0`. -/
def ButtonStatics.initial : ButtonStatics :=
  { lastButtonState := false, buttonPressStartTime := 0 }

/-- An object whose counter array has its declared size of 100 entries. -/
def ErrorHandler.WellFormed (s : ErrorHandler) : Prop := s._errorCounts.length = 100

instance (s : ErrorHandler) : Decidable s.WellFormed :=
  inferInstanceAs (Decidable (s._errorCounts.length = 100))

namespace ErrorHandler

/-! ## Operations -/

/-- The constructor `ErrorHandler::ErrorHandler()`. -/
def ctor : ErrorHandler :=
  { _currentError := .NO_ERROR
    _errorStartTime := 0
    _inRecovery := false
    _errorCounts := List.replicate 100 0 }

/-- Member function `ErrorHandler::clearError`. -/
def clearError (s : ErrorHandler) : ErrorHandler :=
  { s with _currentError := .NO_ERROR, _inRecovery := false }

/-- Member function `ErrorHandler::begin`: prints a line and calls `clearError`. -/
def begin (s : ErrorHandler) : ErrorHandler := clearError s

/-- Member function `ErrorHandler::setError`; `intBits` is the width of `int`, the type
of the counter that `_errorCounts[code]++` increments. -/
def setError (intBits : Nat) (s : ErrorHandler) (code : ErrorCode) (active : Bool)
    (millis : Nat) : ErrorHandler :=
  if active then
    { _currentError := code
      _errorStartTime := toULong millis
      _errorCounts :=
        s._errorCounts.set code.toNat (incInt intBits (s._errorCounts.getD code.toNat 0))
      _inRecovery := false }
  else
    clearError s

/-- Member function `ErrorHandler::getCurrentError`. -/
def getCurrentError (s : ErrorHandler) : ErrorCode := s._currentError

/-- Member function `ErrorHandler::hasError`. -/
def hasError (s : ErrorHandler) : Bool := s._currentError != .NO_ERROR

/-- Member function `ErrorHandler::getErrorCount`. -/
def getErrorCount (s : ErrorHandler) (code : ErrorCode) : Int :=
  s._errorCounts.getD code.toNat 0

/-- Member function `ErrorHandler::recoverFromSensorError`. -/
def recoverFromSensorError (_s : ErrorHandler) : Bool := true

/-- Member function `ErrorHandler::recoverFromCalibrationError`. -/
def recoverFromCalibrationError (_s : ErrorHandler) : Bool := true

/-- Member function `ErrorHandler::recoverFromButtonError`. -/
def recoverFromButtonError (s : ErrorHandler) (millis : Nat) : Bool :=
  if subULong millis s._errorStartTime > 5000 then true else false

/-- Member function `ErrorHandler::recoverFromCommunicationError`. -/
def recoverFromCommunicationError (_s : ErrorHandler) : Bool := true

/-- Member function `ErrorHandler::recoverFromMemoryError`. -/
def recoverFromMemoryError (_s : ErrorHandler) : Bool := false

/-- Member function `ErrorHandler::recoverFromSystemError`. -/
def recoverFromSystemError (_s : ErrorHandler) : Bool := false

/-- Member function `ErrorHandler::handleError`: the returned flag is `recovered`. -/
def handleError (s : ErrorHandler) (millis : Nat) : Bool × ErrorHandler :=
  if !s._inRecovery then
    let s1 : ErrorHandler := { s with _inRecovery := true }
    let recovered : Bool :=
      match s1._currentError with
      | .SENSOR_ERROR => recoverFromSensorError s1
      | .CALIBRATION_ERROR => recoverFromCalibrationError s1
      | .BUTTON_ERROR => recoverFromButtonError s1 millis
      | .COMMUNICATION_ERROR => recoverFromCommunicationError s1
      | .MEMORY_ERROR => recoverFromMemoryError s1
      | .SYSTEM_ERROR => recoverFromSystemError s1
      | .NO_ERROR => true
    if recovered then (recovered, clearError s1) else (recovered, s1)
  else
    (false, s)

/-- The loop of `checkSensorError` from index `i` on, with `n` iterations left:
the value of `isStuck` when the loop is left. -/
def isStuckLoop (rawValue : Int) (previousRaw : List Int) (i : Nat) : Nat → Bool
  | 0 => true
  | n + 1 =>
    if previousRaw.getD i 0 != rawValue then false
    else isStuckLoop rawValue previousRaw (i + 1) n

/-- Member function `ErrorHandler::checkSensorError`.  The loop
`for (i = 0; i < sampleCount; i++)` makes `sampleCount` iterations at most, none when
`sampleCount` is not positive. -/
def checkSensorError (intBits : Nat) (s : ErrorHandler) (rawValue : Int) (previousRaw : List Int)
    (sampleCount : Int) (millis : Nat) : Bool × ErrorHandler :=
  let isStuck := isStuckLoop rawValue previousRaw 0 sampleCount.toNat
  let isOutOfRange := decide (rawValue < 0) || decide (rawValue > 1023)
  if isStuck || isOutOfRange then
    (true, setError intBits s .SENSOR_ERROR true millis)
  else
    (false, s)

/-- Member function `ErrorHandler::checkCalibrationData`; `intBits` is the width of `int`.
The right operand of `||` is evaluated only when the left one is false. -/
def checkCalibrationData (intBits : Nat) (s : ErrorHandler) (minValue maxValue : Int)
    (isCalibrated : Bool) (millis : Nat) : Bool × ErrorHandler :=
  if isCalibrated then
    if decide (minValue ≥ maxValue) || decide (subInt intBits maxValue minValue < 50) then
      (true, setError intBits s .CALIBRATION_ERROR true millis)
    else
      (false, s)
  else
    (false, s)

/-- Member function `ErrorHandler::checkButtonStuck`, with its statics passed in and out. -/
def checkButtonStuck (intBits : Nat) (s : ErrorHandler) (b : ButtonStatics) (buttonState : Bool)
    (stuckDuration : Nat) (millis : Nat) : Bool × ErrorHandler × ButtonStatics :=
  if buttonState != b.lastButtonState then
    (false, s, { lastButtonState := buttonState, buttonPressStartTime := toULong millis })
  else if buttonState then
    if subULong millis b.buttonPressStartTime > stuckDuration then
      (true, setError intBits s .BUTTON_ERROR true millis, b)
    else
      (false, s, b)
  else
    (false, s, b)

/-- Member function `ErrorHandler::checkCommunicationTimeout`. -/
def checkCommunicationTimeout (intBits : Nat) (s : ErrorHandler) (lastComTime timeoutLimit : Nat)
    (millis : Nat) : Bool × ErrorHandler :=
  if subULong millis lastComTime > timeoutLimit then
    (true, setError intBits s .COMMUNICATION_ERROR true millis)
  else
    (false, s)

/-- Consecutive calls of `handleError`, one per clock reading: the returned flags in
order, and the final object. -/
def handleErrorRepeat (s : ErrorHandler) : List Nat → List Bool × ErrorHandler
  | [] => ([], s)
  | t :: ts =>
    ((handleError s t).1 :: (handleErrorRepeat (handleError s t).2 ts).1,
      (handleErrorRepeat (handleError s t).2 ts).2)

/-- While a recovery is pending, the current error is one that does not recover at once. -/
def RecoveryInv (s : ErrorHandler) : Prop :=
  s._inRecovery = true →
    s._currentError = .BUTTON_ERROR ∨ s._currentError = .MEMORY_ERROR ∨
      s._currentError = .SYSTEM_ERROR

end ErrorHandler

/-- Modelled from the spec: `Calibration::isValidRange` (declared in `core/Calibration.h`,
which is not among the sources; only its unit test `test_is_valid_range` is).  The spec
gives it as the pure predicate `min < max && (max - min) >= 50`, over integers. -/
def isValidRange (minValue maxValue : Int) : Bool :=
  decide (minValue < maxValue) && decide (maxValue - minValue ≥ 50)

/-! ## Sequences of operations -/

/-- One call of a public operation, with its arguments and the clock reading. -/
inductive Op where
  | begin
  | setError (code : ErrorCode) (active : Bool) (millis : Nat)
  | clearError
  | handleError (millis : Nat)
  | checkSensorError (rawValue : Int) (previousRaw : List Int) (sampleCount : Int)
      (millis : Nat)
  | checkCalibrationData (minValue maxValue : Int) (isCalibrated : Bool) (millis : Nat)
  | checkButtonStuck (buttonState : Bool) (stuckDuration : Nat) (millis : Nat)
  | checkCommunicationTimeout (lastComTime timeoutLimit : Nat) (millis : Nat)

/-- The object together with the statics of `checkButtonStuck`. -/
structure World where
  handler : ErrorHandler
  button : ButtonStatics
  deriving DecidableEq

/-- The state right after construction. -/
def World.initial : World := { handler := ErrorHandler.ctor, button := ButtonStatics.initial }

/-- Effect of one call on the state; `intBits` is the width of `int`. -/
def Op.apply (intBits : Nat) (w : World) : Op → World
  | .begin => { w with handler := w.handler.begin }
  | .setError code active millis =>
    { w with handler := w.handler.setError intBits code active millis }
  | .clearError => { w with handler := w.handler.clearError }
  | .handleError millis => { w with handler := (w.handler.handleError millis).2 }
  | .checkSensorError rawValue previousRaw sampleCount millis =>
    { w with handler :=
        (w.handler.checkSensorError intBits rawValue previousRaw sampleCount millis).2 }
  | .checkCalibrationData minValue maxValue isCalibrated millis =>
    { w with handler :=
        (ErrorHandler.checkCalibrationData intBits w.handler minValue maxValue isCalibrated
          millis).2 }
  | .checkButtonStuck buttonState stuckDuration millis =>
    { handler := (w.handler.checkButtonStuck intBits w.button buttonState stuckDuration millis).2.1
      button := (w.handler.checkButtonStuck intBits w.button buttonState stuckDuration millis).2.2 }
  | .checkCommunicationTimeout lastComTime timeoutLimit millis =>
    { w with handler :=
        (w.handler.checkCommunicationTimeout intBits lastComTime timeoutLimit millis).2 }

/-- Effect of a sequence of calls, first call first. -/
def runOps (intBits : Nat) (w : World) (ops : List Op) : World :=
  ops.foldl (Op.apply intBits) w

/-- States that some sequence of calls produces from the freshly constructed object. -/
def Reachable (intBits : Nat) (w : World) : Prop :=
  ∃ ops : List Op, runOps intBits World.initial ops = w

/-! ## Sequences of `checkButtonStuck` calls -/

/-- One call of `checkButtonStuck`: its two arguments and the clock reading. -/
structure ButtonCall where
  buttonState : Bool
  stuckDuration : Nat
  millis : Nat
  deriving DecidableEq

/-- Consecutive calls of `checkButtonStuck`, first call first: the object and the statics
after the last call. -/
def runButtonCalls (intBits : Nat) (s : ErrorHandler) (b : ButtonStatics) :
    List ButtonCall → ErrorHandler × ButtonStatics
  | [] => (s, b)
  | c :: cs =>
    runButtonCalls intBits
      (s.checkButtonStuck intBits b c.buttonState c.stuckDuration c.millis).2.1
      (s.checkButtonStuck intBits b c.buttonState c.stuckDuration c.millis).2.2 cs

/-- The button state passed to call number `j` of a sequence (calls are numbered from 0). -/
def pressedAt (cs : List ButtonCall) (j : Nat) : Bool :=
  match cs[j]? with
  | some c => c.buttonState
  | none => false

/-- The clock reading at call number `j` of a sequence. -/
def clockAt (cs : List ButtonCall) (j : Nat) : Nat :=
  match cs[j]? with
  | some c => c.millis
  | none => 0

/-- The button state recorded by the call preceding call number `j`; released before the
first call. -/
def recordedBefore (cs : List ButtonCall) : Nat → Bool
  | 0 => false
  | j + 1 => pressedAt cs j

/-- Call number `j` of the sequence is one at which the button state changes. -/
def changedAt (cs : List ButtonCall) (j : Nat) : Prop :=
  j < cs.length ∧ pressedAt cs j ≠ recordedBefore cs j

/-- Call number `j` is the most recent call of the sequence at which the state changed. -/
def lastChangeAt (cs : List ButtonCall) (j : Nat) : Prop :=
  changedAt cs j ∧ ∀ k : Nat, j < k → ¬ changedAt cs k

/-- What the statics hold after a sequence of calls. -/
def ButtonInv (cs : List ButtonCall) (b : ButtonStatics) : Prop :=
  b.lastButtonState = recordedBefore cs cs.length ∧
  (b.lastButtonState = true →
    ∃ j : Nat, lastChangeAt cs j ∧ b.buttonPressStartTime = clockAt cs j)

/-! ## Auxiliary facts -/

theorem ErrorCode.toNat_lt (c : ErrorCode) : c.toNat < 100 := by
  cases c <;> decide

theorem ErrorCode.toNat_inj {c d : ErrorCode} (h : c.toNat = d.toNat) : c = d := by
  cases c <;> cases d <;> first | rfl | (exact absurd h (by decide))

theorem getD_set_same (l : List Int) (i : Nat) (v : Int) (h : i < l.length) :
    (l.set i v).getD i 0 = v := by
  simp [List.getD_eq_getElem?_getD, List.getElem?_set, h]

theorem getD_set_other (l : List Int) (i j : Nat) (v : Int) (h : i ≠ j) :
    (l.set i v).getD j 0 = l.getD j 0 := by
  simp [List.getD_eq_getElem?_getD, List.getElem?_set, h]

theorem subULong_cast (a b : Nat) :
    ((subULong a b : Nat) : Int) = ((a : Int) - (b : Int)) % 4294967296 := by
  simp only [subULong, toULong, ULONG_MOD]
  omega

theorem subULong_of_le (a b : Nat) (hab : b ≤ a) (ha : a < ULONG_MOD) :
    subULong a b = a - b := by
  simp only [subULong, toULong, ULONG_MOD] at *
  omega

theorem wrapInt_of_inRange (intBits : Nat) (x : Int) (hbits : 0 < intBits)
    (hlo : intMin intBits ≤ x) (hhi : x ≤ intMax intBits) : wrapInt intBits x = x := by
  obtain ⟨k, rfl⟩ : ∃ k, intBits = k + 1 := ⟨intBits - 1, by omega⟩
  simp only [wrapInt, intMin, intMax, Nat.add_sub_cancel, pow_succ] at *
  have hpos : (0 : Int) < 2 ^ k := by positivity
  generalize (2 : Int) ^ k = h at *
  rw [Int.emod_eq_of_lt (by omega) (by omega)]
  omega

theorem incInt_of_lt_intMax (intBits : Nat) (x : Int) (hbits : 0 < intBits)
    (hlo : intMin intBits ≤ x) (hhi : x < intMax intBits) : incInt intBits x = x + 1 := by
  have h1 : intMin intBits ≤ x + 1 := by omega
  have h2 : x + 1 ≤ intMax intBits := by omega
  exact wrapInt_of_inRange intBits (x + 1) hbits h1 h2

theorem le_incInt (intBits : Nat) (x : Int) (hhi : x < intMax intBits) :
    x ≤ incInt intBits x := by
  rcases Nat.eq_zero_or_pos intBits with h0 | hpos
  · subst h0
    simp only [incInt, wrapInt, intMin, intMax] at *
    norm_num at *
    omega
  · by_cases hlo : intMin intBits ≤ x
    · rw [incInt_of_lt_intMax intBits x hpos hlo hhi]
      omega
    · have hpow : (0 : Int) < 2 ^ intBits := by positivity
      have hnn := Int.emod_nonneg (x + 1 - intMin intBits) (ne_of_gt hpow)
      simp only [incInt, wrapInt]
      omega

namespace ErrorHandler

/-! ### The recovery flag along sequences of calls -/

theorem recoveryInv_clearError (s : ErrorHandler) : RecoveryInv (clearError s) := by
  intro h; simp [clearError] at h

theorem recoveryInv_setError (intBits : Nat) (s : ErrorHandler) (code : ErrorCode) (active : Bool)
    (millis : Nat) : RecoveryInv (setError intBits s code active millis) := by
  intro h
  cases active <;> simp [setError, clearError] at h

theorem recoveryInv_handleError (s : ErrorHandler) (millis : Nat) (hs : RecoveryInv s) :
    RecoveryInv (handleError s millis).2 := by
  cases hr : s._inRecovery
  · cases hc : s._currentError <;>
      simp [handleError, hr, hc, RecoveryInv, clearError, recoverFromSensorError,
        recoverFromCalibrationError, recoverFromCommunicationError, recoverFromMemoryError,
        recoverFromSystemError]
    · split <;> simp_all
  · simpa [handleError, hr] using hs

theorem recoveryInv_apply (intBits : Nat) (w : World) (op : Op)
    (hw : RecoveryInv w.handler) : RecoveryInv (op.apply intBits w).handler := by
  cases op with
  | begin => exact recoveryInv_clearError _
  | setError code active millis => exact recoveryInv_setError _ _ _ _ _
  | clearError => exact recoveryInv_clearError _
  | handleError millis => exact recoveryInv_handleError _ _ hw
  | checkSensorError rawValue previousRaw sampleCount millis =>
    simp only [Op.apply, checkSensorError]
    split
    · exact recoveryInv_setError _ _ _ _ _
    · exact hw
  | checkCalibrationData minValue maxValue isCalibrated millis =>
    simp only [Op.apply, checkCalibrationData]
    split
    · split
      · exact recoveryInv_setError _ _ _ _ _
      · exact hw
    · exact hw
  | checkButtonStuck buttonState stuckDuration millis =>
    simp only [Op.apply, checkButtonStuck]
    split
    · exact hw
    · split
      · split
        · exact recoveryInv_setError _ _ _ _ _
        · exact hw
      · exact hw
  | checkCommunicationTimeout lastComTime timeoutLimit millis =>
    simp only [Op.apply, checkCommunicationTimeout]
    split
    · exact recoveryInv_setError _ _ _ _ _
    · exact hw

theorem recoveryInv_runOps (intBits : Nat) (ops : List Op) (w : World)
    (hw : RecoveryInv w.handler) : RecoveryInv (runOps intBits w ops).handler := by
  induction ops generalizing w with
  | nil => exact hw
  | cons op ops ih => exact ih (op.apply intBits w) (recoveryInv_apply intBits w op hw)

theorem recoveryInv_of_reachable (intBits : Nat) (w : World) (hw : Reachable intBits w) :
    RecoveryInv w.handler := by
  obtain ⟨ops, rfl⟩ := hw
  exact recoveryInv_runOps intBits ops World.initial
    (by intro h; simp [World.initial, ctor] at h)

theorem handleError_of_inRecovery (s : ErrorHandler) (t : Nat) (h : s._inRecovery = true) :
    handleError s t = (false, s) := by
  simp [handleError, h]

/-! ### The stuck-sensor loop -/

theorem isStuckLoop_iff (rawValue : Int) (previousRaw : List Int) (n i : Nat) :
    isStuckLoop rawValue previousRaw i n = true ↔
      ∀ j : Nat, i ≤ j → j < i + n → previousRaw.getD j 0 = rawValue := by
  induction n generalizing i with
  | zero =>
    simp only [isStuckLoop, true_iff]
    intro j h1 h2
    omega
  | succ n ih =>
    by_cases hi : previousRaw.getD i 0 = rawValue
    · simp only [isStuckLoop, hi, bne_self_eq_false, Bool.false_eq_true, if_false, ih]
      constructor
      · intro h j h1 h2
        rcases Nat.eq_or_lt_of_le h1 with h3 | h3
        · rw [← h3]; exact hi
        · exact h j h3 (by omega)
      · intro h j h1 h2
        exact h j (by omega) (by omega)
    · have : (previousRaw.getD i 0 != rawValue) = true := by simpa using hi
      simp only [isStuckLoop, this, if_true, Bool.false_eq_true, false_iff]
      intro h
      exact hi (h i (Nat.le_refl i) (by omega))

end ErrorHandler

/-! ### The statics of `checkButtonStuck` along a sequence of calls -/

theorem runButtonCalls_append (intBits : Nat) (s : ErrorHandler) (b : ButtonStatics)
    (pre : List ButtonCall) (c : ButtonCall) :
    runButtonCalls intBits s b (pre ++ [c]) =
      (((runButtonCalls intBits s b pre).1.checkButtonStuck intBits
          (runButtonCalls intBits s b pre).2 c.buttonState c.stuckDuration c.millis).2.1,
       ((runButtonCalls intBits s b pre).1.checkButtonStuck intBits
          (runButtonCalls intBits s b pre).2 c.buttonState c.stuckDuration c.millis).2.2) := by
  induction pre generalizing s b with
  | nil => rfl
  | cons a pre ih =>
    show runButtonCalls intBits _ _ (pre ++ [c]) = _
    rw [ih]
    rfl

theorem pressedAt_append_left (pre : List ButtonCall) (c : ButtonCall) (j : Nat)
    (h : j < pre.length) : pressedAt (pre ++ [c]) j = pressedAt pre j := by
  simp only [pressedAt, List.getElem?_append_left h]

theorem pressedAt_append_length (pre : List ButtonCall) (c : ButtonCall) :
    pressedAt (pre ++ [c]) pre.length = c.buttonState := by
  simp [pressedAt]

theorem clockAt_append_left (pre : List ButtonCall) (c : ButtonCall) (j : Nat)
    (h : j < pre.length) : clockAt (pre ++ [c]) j = clockAt pre j := by
  simp only [clockAt, List.getElem?_append_left h]

theorem clockAt_append_length (pre : List ButtonCall) (c : ButtonCall) :
    clockAt (pre ++ [c]) pre.length = c.millis := by
  simp [clockAt]

theorem recordedBefore_append_left (pre : List ButtonCall) (c : ButtonCall) (j : Nat)
    (h : j ≤ pre.length) : recordedBefore (pre ++ [c]) j = recordedBefore pre j := by
  cases j with
  | zero => rfl
  | succ j => exact pressedAt_append_left pre c j h

theorem changedAt_append_left (pre : List ButtonCall) (c : ButtonCall) (j : Nat)
    (h : j < pre.length) : changedAt (pre ++ [c]) j ↔ changedAt pre j := by
  simp only [changedAt, pressedAt_append_left pre c j h,
    recordedBefore_append_left pre c j (Nat.le_of_lt h), List.length_append,
    List.length_singleton]
  constructor
  · exact fun hh => ⟨h, hh.2⟩
  · exact fun hh => ⟨by omega, hh.2⟩

theorem changedAt_append_length (pre : List ButtonCall) (c : ButtonCall) :
    changedAt (pre ++ [c]) pre.length ↔ c.buttonState ≠ recordedBefore pre pre.length := by
  simp only [changedAt, pressedAt_append_length,
    recordedBefore_append_left pre c pre.length (Nat.le_refl _), List.length_append,
    List.length_singleton]
  constructor
  · exact fun hh => hh.2
  · exact fun hh => ⟨by omega, hh⟩

theorem buttonInv_runButtonCalls (intBits : Nat) (s : ErrorHandler) (cs : List ButtonCall)
    (hclk : ∀ c ∈ cs, c.millis < ULONG_MOD) :
    ButtonInv cs (runButtonCalls intBits s ButtonStatics.initial cs).2 := by
  induction cs using List.reverseRecOn with
  | nil =>
    refine ⟨rfl, ?_⟩
    intro h
    simp [runButtonCalls, ButtonStatics.initial] at h
  | append_singleton pre c ih =>
    have ih := ih (fun x hx => hclk x (List.mem_append_left _ hx))
    have hc : c.millis < ULONG_MOD := hclk c (by simp)
    obtain ⟨ih1, ih2⟩ := ih
    rw [runButtonCalls_append]
    generalize (runButtonCalls intBits s ButtonStatics.initial pre).1 = s1 at *
    generalize (runButtonCalls intBits s ButtonStatics.initial pre).2 = b1 at *
    have hlen : (pre ++ [c]).length = pre.length + 1 := by simp
    have hrec : recordedBefore (pre ++ [c]) (pre ++ [c]).length = c.buttonState := by
      rw [hlen]; exact pressedAt_append_length pre c
    by_cases hne : c.buttonState = b1.lastButtonState
    · -- no change of state: the statics are kept
      have hb : (s1.checkButtonStuck intBits b1 c.buttonState c.stuckDuration c.millis).2.2
          = b1 := by
        unfold ErrorHandler.checkButtonStuck
        simp only [hne, bne_self_eq_false, Bool.false_eq_true, if_false]
        split
        · split <;> rfl
        · rfl
      simp only [hb]
      refine ⟨by rw [hrec, hne], ?_⟩
      intro hl
      obtain ⟨j, ⟨hj1, hj2⟩, hj3⟩ := ih2 hl
      have hjl : j < pre.length := hj1.1
      refine ⟨j, ⟨(changedAt_append_left pre c j hjl).mpr hj1, ?_⟩, ?_⟩
      · intro k hk hch
        have hkl : k < pre.length + 1 := by have := hch.1; rw [hlen] at this; exact this
        rcases Nat.lt_or_ge k pre.length with h | h
        · exact hj2 k hk ((changedAt_append_left pre c k h).mp hch)
        · have hk2 : k = pre.length := by omega
          subst hk2
          exact (changedAt_append_length pre c).mp hch (by rw [hne, ih1])
      · rw [hj3, clockAt_append_left pre c j hjl]
    · -- the state changes: both statics are overwritten
      have hb : (s1.checkButtonStuck intBits b1 c.buttonState c.stuckDuration c.millis).2.2 =
          { lastButtonState := c.buttonState, buttonPressStartTime := toULong c.millis } := by
        unfold ErrorHandler.checkButtonStuck
        have : (c.buttonState != b1.lastButtonState) = true := by simpa using hne
        simp only [this, if_true]
      simp only [hb]
      refine ⟨hrec.symm, ?_⟩
      intro _
      refine ⟨pre.length,
        ⟨(changedAt_append_length pre c).mpr (by rw [← ih1]; exact hne), ?_⟩, ?_⟩
      · intro k hk hch
        have := hch.1
        rw [hlen] at this
        omega
      · rw [clockAt_append_length]
        exact Nat.mod_eq_of_lt hc

theorem clockAt_mem (cs : List ButtonCall) (j : Nat) (h : j < cs.length) :
    ∃ c ∈ cs, c.millis = clockAt cs j := by
  refine ⟨cs[j], List.getElem_mem h, ?_⟩
  simp [clockAt, List.getElem?_eq_getElem h]

theorem lastChangeAt_unique (cs : List ButtonCall) (i j : Nat) (hi : lastChangeAt cs i)
    (hj : lastChangeAt cs j) : i = j := by
  rcases Nat.lt_trichotomy i j with h | h | h
  · exact absurd hj.1 (hi.2 j h)
  · exact h
  · exact absurd hi.1 (hj.2 i h)

namespace ErrorHandler

/-! ## The claims -/

/-- Claim C1 fails as stated: take a 32-bit `int` and the freshly constructed object with
the counter of `SENSOR_ERROR` at `INT_MAX` = 2147483647.  The object has its 100 counters,
and `setError(SENSOR_ERROR, true)` leaves that counter at -2147483648, not at one more
than before. -/
theorem setError_count_at_intMax :
    ({ ctor with _errorCounts := ctor._errorCounts.set 1 2147483647 } : ErrorHandler).WellFormed ∧
    getErrorCount ({ ctor with _errorCounts := ctor._errorCounts.set 1 2147483647 })
      .SENSOR_ERROR = intMax 32 ∧
    getErrorCount
      (setError 32 ({ ctor with _errorCounts := ctor._errorCounts.set 1 2147483647 })
        .SENSOR_ERROR true 10) .SENSOR_ERROR = -2147483648 ∧
    getErrorCount
      (setError 32 ({ ctor with _errorCounts := ctor._errorCounts.set 1 2147483647 })
        .SENSOR_ERROR true 10) .SENSOR_ERROR ≠
      getErrorCount ({ ctor with _errorCounts := ctor._errorCounts.set 1 2147483647 })
        .SENSOR_ERROR + 1 := by
  refine ⟨by decide, by decide, by decide, by decide⟩

/-- Claim C1 as amended: on an object with its 100 counters, for an `int` of any width and
a clock reading `now` of the 32-bit clock, `setError(k, true)` makes `k` the current error
whatever was current before, records `now` as the start time, clears the recovery flag
and leaves the counter of every other kind alone; when the counter of `k` is an `int`
below `INT_MAX`, it is exactly one more than before.  So after `setError(SENSOR_ERROR)`
followed by `setError(BUTTON_ERROR)` the current error is `BUTTON_ERROR`, `hasError` is
true, and the sensor counter, when it was below `INT_MAX`, is its old value plus one. -/
theorem setError_active_effect (intBits : Nat) (s : ErrorHandler) (k : ErrorCode) (now : Nat)
    (hbits : 0 < intBits) (hwf : s.WellFormed) (hnow : now < ULONG_MOD) :
    (setError intBits s k true now)._currentError = k ∧
    (setError intBits s k true now)._errorStartTime = now ∧
    (setError intBits s k true now)._inRecovery = false ∧
    (intMin intBits ≤ getErrorCount s k → getErrorCount s k < intMax intBits →
      getErrorCount (setError intBits s k true now) k = getErrorCount s k + 1) ∧
    (∀ j : ErrorCode, j ≠ k →
      getErrorCount (setError intBits s k true now) j = getErrorCount s j) ∧
    (∀ t1 t2 : Nat,
      getCurrentError
          (setError intBits (setError intBits s .SENSOR_ERROR true t1) .BUTTON_ERROR true t2)
        = .BUTTON_ERROR ∧
      hasError
          (setError intBits (setError intBits s .SENSOR_ERROR true t1) .BUTTON_ERROR true t2)
        = true ∧
      (intMin intBits ≤ getErrorCount s .SENSOR_ERROR →
        getErrorCount s .SENSOR_ERROR < intMax intBits →
        getErrorCount
            (setError intBits (setError intBits s .SENSOR_ERROR true t1) .BUTTON_ERROR true t2)
            .SENSOR_ERROR = getErrorCount s .SENSOR_ERROR + 1)) := by
  have hlen : s._errorCounts.length = 100 := hwf
  refine ⟨rfl, ?_, rfl, ?_, ?_, ?_⟩
  · simp only [setError, toULong, if_true]
    exact Nat.mod_eq_of_lt hnow
  · intro hlo hhi
    simp only [setError, getErrorCount, if_true] at *
    rw [getD_set_same _ _ _ (by rw [hlen]; exact k.toNat_lt)]
    exact incInt_of_lt_intMax intBits _ hbits hlo hhi
  · intro j hj
    simp only [setError, getErrorCount, if_true]
    exact getD_set_other _ _ _ _ (fun h => hj (ErrorCode.toNat_inj h.symm))
  · intro t1 t2
    refine ⟨rfl, rfl, ?_⟩
    intro hlo hhi
    simp only [setError, getErrorCount, if_true] at *
    rw [getD_set_other _ _ _ _ (by decide)]
    rw [getD_set_same _ _ _ (by rw [hlen]; decide)]
    exact incInt_of_lt_intMax intBits _ hbits hlo hhi

/-- The amended claim C1 at the freshly constructed object on a 16-bit `int`, kind
`SENSOR_ERROR` and clock 10: the counter goes from 0 to 1. -/
theorem setError_active_effect_witness :
    0 < 16 ∧ ctor.WellFormed ∧ 10 < ULONG_MOD ∧
    intMin 16 ≤ getErrorCount ctor .SENSOR_ERROR ∧
    getErrorCount ctor .SENSOR_ERROR < intMax 16 ∧
    getErrorCount (setError 16 ctor .SENSOR_ERROR true 10) .SENSOR_ERROR
      = getErrorCount ctor .SENSOR_ERROR + 1 :=
  ⟨by decide, by decide, by decide, by decide, by decide,
    (setError_active_effect 16 ctor .SENSOR_ERROR 10 (by decide) (by decide)
      (by decide)).2.2.2.1 (by decide) (by decide)⟩

/-- Claim C2 fails as stated: construct, `setError(BUTTON_ERROR)` at clock 0, then
`handleError` at clock 100 (it returns false and sets the recovery flag).  The state is
reachable, its current error is `BUTTON_ERROR`, and at clock 6000 the elapsed time
6000 exceeds 5000, yet `handleError` returns false. -/
theorem handleError_button_latched :
    (runOps 16 World.initial
        [Op.setError .BUTTON_ERROR true 0, Op.handleError 100]).handler._currentError
      = .BUTTON_ERROR ∧
    (5000 : Int) < 6000 - ((runOps 16 World.initial
        [Op.setError .BUTTON_ERROR true 0, Op.handleError 100]).handler._errorStartTime : Int) ∧
    ((runOps 16 World.initial
        [Op.setError .BUTTON_ERROR true 0, Op.handleError 100]).handler.handleError 6000).1
      = false := by
  refine ⟨by decide, by decide, by decide⟩

/-- Claim C2 as amended: in every state whose current error is `BUTTON_ERROR` and for
every clock reading `now`, `handleError` returns true exactly when the recovery flag is
not set and the elapsed time `(now - errorStartTime) mod 2^32` exceeds 5000 ms.  A call
that returns true clears the error.  A call that returns false leaves `BUTTON_ERROR`
current with its start time and with the recovery flag set, and every `handleError` call
that follows it, at any clock readings, returns false and changes nothing.  The flag is
not set right after `setError(BUTTON_ERROR, true)`, so the first `handleError` after it
returns true exactly when the time elapsed since that `setError` exceeds 5000 ms. -/
theorem handleError_button_iff (s : ErrorHandler) (now : Nat)
    (h : s._currentError = .BUTTON_ERROR) :
    ((handleError s now).1 = true ↔
      (s._inRecovery = false ∧
        ((now : Int) - (s._errorStartTime : Int)) % 4294967296 > 5000)) ∧
    ((handleError s now).1 = true →
      (handleError s now).2._currentError = .NO_ERROR ∧
      (handleError s now).2._inRecovery = false) ∧
    ((handleError s now).1 = false →
      (handleError s now).2._currentError = .BUTTON_ERROR ∧
      (handleError s now).2._inRecovery = true ∧
      (handleError s now).2._errorStartTime = s._errorStartTime ∧
      (handleError s now).2._errorCounts = s._errorCounts ∧
      ∀ clocks : List Nat,
        (∀ r ∈ (handleErrorRepeat (handleError s now).2 clocks).1, r = false) ∧
        (handleErrorRepeat (handleError s now).2 clocks).1.length = clocks.length ∧
        (handleErrorRepeat (handleError s now).2 clocks).2 = (handleError s now).2) ∧
    (∀ (intBits : Nat) (s0 : ErrorHandler) (t : Nat),
      (setError intBits s0 .BUTTON_ERROR true t)._inRecovery = false ∧
      ((handleError (setError intBits s0 .BUTTON_ERROR true t) now).1 = true ↔
        ((now : Int) - ((t % 4294967296 : Nat) : Int)) % 4294967296 > 5000)) := by
  have key : ∀ (s : ErrorHandler), s._currentError = .BUTTON_ERROR →
      ((handleError s now).1 = true ↔
        (s._inRecovery = false ∧
          ((now : Int) - (s._errorStartTime : Int)) % 4294967296 > 5000)) := by
    intro s h
    rw [← subULong_cast]
    cases hr : s._inRecovery
    · by_cases ht : subULong now s._errorStartTime > 5000
      · have : ((subULong now s._errorStartTime : Nat) : Int) > 5000 := by exact_mod_cast ht
        simp [handleError, hr, h, recoverFromButtonError, ht, this]
      · have : ¬ ((subULong now s._errorStartTime : Nat) : Int) > 5000 := by
          intro h'; exact ht (by exact_mod_cast h')
        simp [handleError, hr, h, recoverFromButtonError, ht, this]
    · simp [handleError, hr]
  have hrep : ∀ (s1 : ErrorHandler), s1._inRecovery = true → ∀ clocks : List Nat,
      (∀ r ∈ (handleErrorRepeat s1 clocks).1, r = false) ∧
      (handleErrorRepeat s1 clocks).1.length = clocks.length ∧
      (handleErrorRepeat s1 clocks).2 = s1 := by
    intro s1 h1 clocks
    induction clocks with
    | nil => exact ⟨by simp [handleErrorRepeat], rfl, rfl⟩
    | cons t ts ih =>
      obtain ⟨i1, i2, i3⟩ := ih
      have hst := handleError_of_inRecovery s1 t h1
      simp only [handleErrorRepeat, hst]
      refine ⟨?_, by simp [i2], i3⟩
      intro r hr
      rcases List.mem_cons.mp hr with hr | hr
      · exact hr
      · exact i1 r hr
  refine ⟨key s h, ?_, ?_, ?_⟩
  · intro htrue
    cases hr : s._inRecovery
    · by_cases ht : subULong now s._errorStartTime > 5000
      · simp [handleError, hr, h, recoverFromButtonError, ht, clearError]
      · simp [handleError, hr, h, recoverFromButtonError, ht] at htrue
    · simp [handleError, hr] at htrue
  · intro hfalse
    have hst : (handleError s now).2._currentError = .BUTTON_ERROR ∧
        (handleError s now).2._inRecovery = true ∧
        (handleError s now).2._errorStartTime = s._errorStartTime ∧
        (handleError s now).2._errorCounts = s._errorCounts := by
      cases hr : s._inRecovery
      · by_cases ht : subULong now s._errorStartTime > 5000
        · simp [handleError, hr, h, recoverFromButtonError, ht] at hfalse
        · simp [handleError, hr, h, recoverFromButtonError, ht]
      · simp [handleError, hr, h]
    exact ⟨hst.1, hst.2.1, hst.2.2.1, hst.2.2.2, hrep _ hst.2.1⟩
  · intro intBits s0 t
    refine ⟨rfl, ?_⟩
    rw [key (setError intBits s0 .BUTTON_ERROR true t) rfl]
    simp [setError, toULong, ULONG_MOD]

/-- The amended claim C2 right after `setError(BUTTON_ERROR)` at clock 0: `handleError`
at clock 100 returns false and sets the recovery flag, and the calls that follow, at
clocks 6000 and 70000, return false as well. -/
theorem handleError_button_iff_witness :
    (setError 16 ctor .BUTTON_ERROR true 0)._currentError = .BUTTON_ERROR ∧
    (handleError (setError 16 ctor .BUTTON_ERROR true 0) 100).1 = false ∧
    (handleError (setError 16 ctor .BUTTON_ERROR true 0) 100).2._inRecovery = true ∧
    (∀ r ∈ (handleErrorRepeat (handleError (setError 16 ctor .BUTTON_ERROR true 0) 100).2
        [6000, 70000]).1, r = false) :=
  ⟨by decide, by decide,
    ((handleError_button_iff (setError 16 ctor .BUTTON_ERROR true 0) 100 (by decide)).2.2.1
      (by decide)).2.1,
    (((handleError_button_iff (setError 16 ctor .BUTTON_ERROR true 0) 100 (by decide)).2.2.1
      (by decide)).2.2.2.2 [6000, 70000]).1⟩

/-- Claim C3: in every state whose current error is `MEMORY_ERROR` or `SYSTEM_ERROR`
(recovery flag set or not) and at every clock reading, `handleError` returns false and
keeps the current error; hence any number of consecutive `handleError` calls at any
clock readings all return false and the error is still active afterwards. -/
theorem handleError_memory_system_never_recovers (s : ErrorHandler)
    (h : s._currentError = .MEMORY_ERROR ∨ s._currentError = .SYSTEM_ERROR) :
    (∀ now : Nat, (handleError s now).1 = false ∧
      (handleError s now).2._currentError = s._currentError) ∧
    (∀ clocks : List Nat,
      (∀ r ∈ (handleErrorRepeat s clocks).1, r = false) ∧
      (handleErrorRepeat s clocks).1.length = clocks.length ∧
      (handleErrorRepeat s clocks).2._currentError = s._currentError ∧
      hasError (handleErrorRepeat s clocks).2 = true) := by
  have step : ∀ (s : ErrorHandler),
      (s._currentError = .MEMORY_ERROR ∨ s._currentError = .SYSTEM_ERROR) → ∀ now : Nat,
      (handleError s now).1 = false ∧ (handleError s now).2._currentError = s._currentError := by
    intro s h now
    cases hr : s._inRecovery
    · rcases h with h | h <;>
        simp [handleError, hr, h, recoverFromMemoryError, recoverFromSystemError]
    · simp [handleError, hr]
  refine ⟨step s h, ?_⟩
  intro clocks
  induction clocks generalizing s with
  | nil =>
    refine ⟨by simp [handleErrorRepeat], by simp [handleErrorRepeat], rfl, ?_⟩
    rcases h with h | h <;> simp [handleErrorRepeat, hasError, h]
  | cons t ts ih =>
    obtain ⟨h1, h2⟩ := step s h t
    have h' : (handleError s t).2._currentError = .MEMORY_ERROR ∨
        (handleError s t).2._currentError = .SYSTEM_ERROR := by rw [h2]; exact h
    obtain ⟨i1, i2, i3, i4⟩ := ih (handleError s t).2 h'
    refine ⟨?_, ?_, ?_, ?_⟩
    · intro r hr
      simp only [handleErrorRepeat, List.mem_cons] at hr
      rcases hr with hr | hr
      · rw [hr, h1]
      · exact i1 r hr
    · simp [handleErrorRepeat, i2]
    · simp only [handleErrorRepeat]; rw [i3, h2]
    · simpa [handleErrorRepeat] using i4

/-- Claim C3 after `setError(MEMORY_ERROR)` at clock 7, with three calls of
`handleError` at clocks 8, 9000 and 100000. -/
theorem handleError_memory_system_never_recovers_witness :
    ((setError 16 ctor .MEMORY_ERROR true 7)._currentError = .MEMORY_ERROR ∨
      (setError 16 ctor .MEMORY_ERROR true 7)._currentError = .SYSTEM_ERROR) ∧
    (handleErrorRepeat (setError 16 ctor .MEMORY_ERROR true 7) [8, 9000, 100000]).1
      = [false, false, false] ∧
    hasError (handleErrorRepeat (setError 16 ctor .MEMORY_ERROR true 7) [8, 9000, 100000]).2
      = true :=
  ⟨Or.inl (by decide), by decide,
    ((handleError_memory_system_never_recovers (setError 16 ctor .MEMORY_ERROR true 7)
      (Or.inl (by decide))).2 [8, 9000, 100000]).2.2.2⟩

/-- Claim C4: in every state reachable from the constructor by a sequence of `setError`,
`clearError`, `handleError` and the four checks (and `begin`) whose current error is
`SENSOR_ERROR`, `CALIBRATION_ERROR` or `COMMUNICATION_ERROR`, and at every clock reading,
`handleError` returns true and leaves the current error `NO_ERROR` and the recovery flag
false. -/
theorem handleError_immediate_recovery (intBits : Nat) (w : World) (now : Nat)
    (hw : Reachable intBits w)
    (h : w.handler._currentError = .SENSOR_ERROR ∨
      w.handler._currentError = .CALIBRATION_ERROR ∨
      w.handler._currentError = .COMMUNICATION_ERROR) :
    (handleError w.handler now).1 = true ∧
    (handleError w.handler now).2._currentError = .NO_ERROR ∧
    (handleError w.handler now).2._inRecovery = false := by
  have hinv := recoveryInv_of_reachable intBits w hw
  cases hr : w.handler._inRecovery
  · rcases h with h | h | h <;>
      simp [handleError, hr, h, clearError, recoverFromSensorError,
        recoverFromCalibrationError, recoverFromCommunicationError]
  · exfalso
    rcases hinv hr with h' | h' | h' <;> rcases h with h | h | h <;>
      rw [h] at h' <;> cases h'

/-- Claim C4 in the state reached by one `checkSensorError` call with the out-of-range
raw value 1500. -/
theorem handleError_immediate_recovery_witness :
    Reachable 16 (runOps 16 World.initial [Op.checkSensorError 1500 [1, 2, 3] 3 40]) ∧
    (runOps 16 World.initial [Op.checkSensorError 1500 [1, 2, 3] 3 40]).handler._currentError
      = .SENSOR_ERROR ∧
    ((runOps 16 World.initial
        [Op.checkSensorError 1500 [1, 2, 3] 3 40]).handler.handleError 41).1 = true :=
  ⟨⟨_, rfl⟩, by decide,
    (handleError_immediate_recovery 16
      (runOps 16 World.initial [Op.checkSensorError 1500 [1, 2, 3] 3 40]) 41 ⟨_, rfl⟩
      (Or.inl (by decide))).1⟩

/-- Claim C5: in every state reachable from the freshly constructed object by a sequence
of `begin`, `setError` (any kind, either flag), `clearError`, `handleError` and the four
checks with any inputs and clock readings, a current error of `NO_ERROR` implies that
the recovery flag is false. -/
theorem noError_not_inRecovery (intBits : Nat) (w : World) (hw : Reachable intBits w)
    (h : w.handler._currentError = .NO_ERROR) : w.handler._inRecovery = false := by
  have hinv := recoveryInv_of_reachable intBits w hw
  cases hr : w.handler._inRecovery
  · rfl
  · rcases hinv hr with h' | h' | h' <;> rw [h] at h' <;> cases h'

/-- Claim C5 in the state reached by `begin`, `setError(MEMORY_ERROR)`, a failing
`handleError` and `setError(SENSOR_ERROR, false)`. -/
theorem noError_not_inRecovery_witness :
    Reachable 16 (runOps 16 World.initial
      [Op.begin, Op.setError .MEMORY_ERROR true 5, Op.handleError 6,
        Op.setError .SENSOR_ERROR false 7]) ∧
    (runOps 16 World.initial
      [Op.begin, Op.setError .MEMORY_ERROR true 5, Op.handleError 6,
        Op.setError .SENSOR_ERROR false 7]).handler._currentError = .NO_ERROR ∧
    (runOps 16 World.initial
      [Op.begin, Op.setError .MEMORY_ERROR true 5, Op.handleError 6,
        Op.setError .SENSOR_ERROR false 7]).handler._inRecovery = false :=
  ⟨⟨_, rfl⟩, by decide,
    noError_not_inRecovery 16 _ ⟨_, rfl⟩ (by decide)⟩

/-- Claim C6: in every state whose recovery flag is set and at every clock reading,
`handleError` returns the object unchanged (current error, start time, every counter
and the flag) and reports no recovery; so calling it at every tick while the recovery is
pending changes nothing, however many calls are made. -/
theorem handleError_inRecovery_frame (s : ErrorHandler) (h : s._inRecovery = true) :
    (∀ now : Nat, (handleError s now).2 = s ∧ (handleError s now).1 = false) ∧
    (∀ clocks : List Nat, (handleErrorRepeat s clocks).2 = s) := by
  have step : ∀ now : Nat, handleError s now = (false, s) := fun now =>
    handleError_of_inRecovery s now h
  refine ⟨fun now => by rw [step now]; exact ⟨rfl, rfl⟩, ?_⟩
  intro clocks
  induction clocks with
  | nil => rfl
  | cons t ts ih => simp only [handleErrorRepeat, step t]; exact ih

/-- Claim C6 in the state left by a failed first recovery of a `BUTTON_ERROR`. -/
theorem handleError_inRecovery_frame_witness :
    (handleError (setError 16 ctor .BUTTON_ERROR true 0) 100).2._inRecovery = true ∧
    (handleError (handleError (setError 16 ctor .BUTTON_ERROR true 0) 100).2 9000).2
      = (handleError (setError 16 ctor .BUTTON_ERROR true 0) 100).2 :=
  ⟨by decide,
    ((handleError_inRecovery_frame (handleError (setError 16 ctor .BUTTON_ERROR true 0) 100).2
      (by decide)).1 9000).1⟩

/-- Claim C7: for every raw value, sample array and `sampleCount` not larger than the
number of samples, `checkSensorError` returns true exactly when each of the first
`sampleCount` samples equals the raw value or the raw value lies outside `[0, 1023]`.
Samples `[300,300,300,300,300]` with raw value 300 and count 5 give true, raw value 1500
gives true, and an in-range raw value with the samples `[100,150,200]` gives false. -/
theorem checkSensorError_iff (intBits : Nat) (s : ErrorHandler) (rawValue : Int)
    (previousRaw : List Int)
    (sampleCount : Int) (millis : Nat) (hlen : sampleCount ≤ (previousRaw.length : Int)) :
    ((checkSensorError intBits s rawValue previousRaw sampleCount millis).1 = true ↔
      ((∀ i : Nat, (i : Int) < sampleCount → previousRaw[i]? = some rawValue) ∨
        rawValue < 0 ∨ rawValue > 1023)) ∧
    (checkSensorError intBits s 300 [300, 300, 300, 300, 300] 5 millis).1 = true ∧
    (checkSensorError intBits s 1500 previousRaw sampleCount millis).1 = true ∧
    (∀ r : Int, 0 ≤ r → r ≤ 1023 →
      (checkSensorError intBits s r [100, 150, 200] 3 millis).1 = false) := by
  have key : ∀ (raw : Int) (prev : List Int) (cnt : Int), cnt ≤ (prev.length : Int) →
      ((checkSensorError intBits s raw prev cnt millis).1 = true ↔
        ((∀ i : Nat, (i : Int) < cnt → prev[i]? = some raw) ∨ raw < 0 ∨ raw > 1023)) := by
    intro raw prev cnt hcnt
    have hstuck : isStuckLoop raw prev 0 cnt.toNat = true ↔
        ∀ i : Nat, (i : Int) < cnt → prev[i]? = some raw := by
      rw [isStuckLoop_iff]
      constructor
      · intro h i hi
        have hil : i < prev.length := by omega
        have := h i (Nat.zero_le i) (by omega)
        rw [List.getD_eq_getElem?_getD, List.getElem?_eq_getElem hil] at this
        rw [List.getElem?_eq_getElem hil]
        simpa using this
      · intro h j _ hj
        have := h j (by omega)
        rw [List.getD_eq_getElem?_getD, this]
        rfl
    unfold checkSensorError
    by_cases h1 : isStuckLoop raw prev 0 cnt.toNat = true
    · simp only [h1, Bool.true_or, if_true, true_iff]
      exact Or.inl (hstuck.mp h1)
    · have h1f : isStuckLoop raw prev 0 cnt.toNat = false := by simpa using h1
      have h2 : ¬ ∀ i : Nat, (i : Int) < cnt → prev[i]? = some raw := fun h => h1 (hstuck.mpr h)
      by_cases h3 : raw < 0
      · simp [h1f, h3]
      · by_cases h4 : raw > 1023
        · simp [h1f, h4]
        · simp only [h1f, h3, h4, decide_False, Bool.or_self, Bool.false_eq_true, if_false,
            false_iff]
          rintro (h | h | h)
          · exact h2 h
          · exact h
          · exact h
  refine ⟨key rawValue previousRaw sampleCount hlen, ?_, ?_, ?_⟩
  · simp [checkSensorError, isStuckLoop]
  · simp [checkSensorError]
  · intro r h0 h1
    rw [← Bool.not_eq_true, key r [100, 150, 200] 3 (by simp)]
    intro h
    rcases h with h | h | h
    · have a := h 0 (by norm_num)
      have b := h 1 (by norm_num)
      simp at a b
      omega
    · omega
    · omega

/-- Claim C7 at raw value 100 with the samples `[100,150,200]`. -/
theorem checkSensorError_iff_witness :
    ((3 : Int) ≤ (([100, 150, 200] : List Int).length : Int)) ∧
    (checkSensorError 16 ctor 100 [100, 150, 200] 3 0).1 = false :=
  ⟨by decide, (checkSensorError_iff 16 ctor 100 [100, 150, 200] 3 0 (by decide)).2.2.2 100
      (by decide) (by decide)⟩

/-- Claim C8: for every width of `int`, every `min` and `max` whose difference
`max - min` fits in an `int`, and every flag, `checkCalibrationData` returns true exactly
when `isCalibrated` is true and `isValidRange min max` is false, where `isValidRange` is
the predicate `min < max` and `max - min >= 50`; it holds of (0,1023) and (100,900) and
fails for (1023,0), (500,100), (500,520) and (0,10). -/
theorem checkCalibrationData_iff (intBits : Nat) (s : ErrorHandler) (minValue maxValue : Int)
    (isCalibrated : Bool) (millis : Nat) (hbits : 0 < intBits)
    (hlo : intMin intBits ≤ maxValue - minValue) (hhi : maxValue - minValue ≤ intMax intBits) :
    ((checkCalibrationData intBits s minValue maxValue isCalibrated millis).1 = true ↔
      (isCalibrated = true ∧ isValidRange minValue maxValue = false)) ∧
    (∀ a b : Int, isValidRange a b = true ↔ (a < b ∧ b - a ≥ 50)) ∧
    isValidRange 0 1023 = true ∧ isValidRange 100 900 = true ∧
    isValidRange 1023 0 = false ∧ isValidRange 500 100 = false ∧
    isValidRange 500 520 = false ∧ isValidRange 0 10 = false := by
  refine ⟨?_, ?_, by decide, by decide, by decide, by decide, by decide, by decide⟩
  · have hw : subInt intBits maxValue minValue = maxValue - minValue :=
      wrapInt_of_inRange intBits _ hbits hlo hhi
    cases isCalibrated
    · simp [checkCalibrationData]
    · simp only [checkCalibrationData, hw, if_true, isValidRange, true_and]
      by_cases h1 : minValue ≥ maxValue
      · have : ¬ minValue < maxValue := by omega
        simp [h1, this]
      · by_cases h2 : maxValue - minValue < 50
        · have : ¬ maxValue - minValue ≥ 50 := by omega
          simp [h1, h2, this]
        · have h3 : minValue < maxValue := by omega
          have h4 : maxValue - minValue ≥ 50 := by omega
          simp [h1, h2, h3, h4]
  · intro a b
    simp [isValidRange]

/-- Claim C8 on a 16-bit `int` with the range (500, 520). -/
theorem checkCalibrationData_iff_witness :
    0 < 16 ∧ intMin 16 ≤ (520 : Int) - 500 ∧ (520 : Int) - 500 ≤ intMax 16 ∧
    ((checkCalibrationData 16 ctor 500 520 true 0).1 = true ↔
      (true = true ∧ isValidRange 500 520 = false)) :=
  ⟨by decide, by decide, by decide,
    (checkCalibrationData_iff 16 ctor 500 520 true 0 (by decide) (by decide) (by decide)).1⟩

/-- Claim C9: take any sequence of `checkButtonStuck` calls, started from the initial
statics, whose clock readings are non-decreasing readings of the 32-bit clock, and let
`c` be its last call and `pre` the calls before it.  The call `c` returns true exactly
when its button state is pressed, the state recorded by the preceding call (released
before the first call) is pressed too, and the clock at `c` minus the clock at the most
recent call at which the state changed is strictly greater than `stuckDuration`.  A call
with the button released never flags, nor does a call at which the state changes. -/
theorem checkButtonStuck_iff (intBits : Nat) (s : ErrorHandler) (pre : List ButtonCall)
    (c : ButtonCall)
    (hmono : List.Pairwise (fun a b => a.millis ≤ b.millis) (pre ++ [c]))
    (hclk : ∀ x ∈ pre ++ [c], x.millis < ULONG_MOD) :
    (((runButtonCalls intBits s ButtonStatics.initial pre).1.checkButtonStuck intBits
        (runButtonCalls intBits s ButtonStatics.initial pre).2
        c.buttonState c.stuckDuration c.millis).1 = true ↔
      (c.buttonState = true ∧ recordedBefore pre pre.length = true ∧
        ∃ j : Nat, lastChangeAt pre j ∧
          (c.millis : Int) - (clockAt pre j : Int) > (c.stuckDuration : Int))) ∧
    (c.buttonState = false →
      ((runButtonCalls intBits s ButtonStatics.initial pre).1.checkButtonStuck intBits
        (runButtonCalls intBits s ButtonStatics.initial pre).2
        c.buttonState c.stuckDuration c.millis).1 = false) ∧
    (c.buttonState ≠ recordedBefore pre pre.length →
      ((runButtonCalls intBits s ButtonStatics.initial pre).1.checkButtonStuck intBits
        (runButtonCalls intBits s ButtonStatics.initial pre).2
        c.buttonState c.stuckDuration c.millis).1 = false) := by
  obtain ⟨inv1, inv2⟩ := buttonInv_runButtonCalls intBits s pre
    (fun x hx => hclk x (List.mem_append_left _ hx))
  have hc : c.millis < ULONG_MOD := hclk c (by simp)
  have hle : ∀ x ∈ pre, x.millis ≤ c.millis := by
    intro x hx
    have := List.pairwise_append.mp hmono
    exact this.2.2 x hx c (by simp)
  generalize (runButtonCalls intBits s ButtonStatics.initial pre).1 = s1 at *
  generalize (runButtonCalls intBits s ButtonStatics.initial pre).2 = b1 at *
  rw [← inv1]
  have hsub : ∀ j : Nat, lastChangeAt pre j →
      ((subULong c.millis (clockAt pre j) : Nat) : Int) = (c.millis : Int) - (clockAt pre j : Int) := by
    intro j hj
    obtain ⟨x, hx, hxe⟩ := clockAt_mem pre j hj.1.1
    have := hle x hx
    rw [hxe] at this
    rw [subULong_of_le _ _ this hc]
    omega
  refine ⟨?_, ?_, ?_⟩
  · unfold checkButtonStuck
    by_cases hne : c.buttonState = b1.lastButtonState
    · cases hcb : c.buttonState
      · simp [hne.symm.trans hcb]
      · have hl : b1.lastButtonState = true := hne.symm.trans hcb
        obtain ⟨j, hj, hst⟩ := inv2 hl
        simp only [hl, bne_self_eq_false, Bool.false_eq_true, if_false, if_true, true_and]
        have hs := hsub j hj
        by_cases ht : subULong c.millis b1.buttonPressStartTime > c.stuckDuration
        · simp only [ht, if_true, true_iff]
          refine ⟨j, hj, ?_⟩
          rw [← hs, ← hst]
          exact_mod_cast ht
        · simp only [ht, if_false, Bool.false_eq_true, false_iff]
          rintro ⟨k, hk, hgt⟩
          have hkj := lastChangeAt_unique pre k j hk hj
          subst hkj
          rw [← hs, ← hst] at hgt
          exact ht (by exact_mod_cast hgt)
    · have : (c.buttonState != b1.lastButtonState) = true := by simpa using hne
      simp only [this, if_true, Bool.false_eq_true, false_iff]
      rintro ⟨h1, h2, _⟩
      exact hne (h1.trans h2.symm)
  · intro hcb
    unfold checkButtonStuck
    simp only [hcb]
    split
    · rfl
    · simp
  · intro hne
    unfold checkButtonStuck
    have : (c.buttonState != b1.lastButtonState) = true := by simpa using hne
    simp only [this, if_true]

/-- Claim C9 for a button pressed at clock 10 and still pressed at clocks 500 and 1011,
with a threshold of 1000 ms. -/
theorem checkButtonStuck_iff_witness :
    List.Pairwise (fun a b : ButtonCall => a.millis ≤ b.millis)
      ([⟨true, 1000, 10⟩, ⟨true, 1000, 500⟩] ++ [⟨true, 1000, 1011⟩]) ∧
    ((runButtonCalls 16 ctor ButtonStatics.initial
        [⟨true, 1000, 10⟩, ⟨true, 1000, 500⟩]).1.checkButtonStuck 16
      (runButtonCalls 16 ctor ButtonStatics.initial [⟨true, 1000, 10⟩, ⟨true, 1000, 500⟩]).2
      true 1000 1011).1 = true ∧
    (∃ j : Nat, lastChangeAt [⟨true, 1000, 10⟩, ⟨true, 1000, 500⟩] j ∧
      ((1011 : Nat) : Int) - (clockAt [⟨true, 1000, 10⟩, ⟨true, 1000, 500⟩] j : Int)
        > ((1000 : Nat) : Int)) :=
  ⟨by decide, by decide,
    ((checkButtonStuck_iff 16 ctor [⟨true, 1000, 10⟩, ⟨true, 1000, 500⟩] ⟨true, 1000, 1011⟩
      (by decide) (by decide)).1.mp (by decide)).2.2⟩

/-- Claim C10: for every clock reading `now`, `lastComTime` and `timeoutLimit`,
`checkCommunicationTimeout` returns true exactly when `(now - lastComTime) mod 2^32` is
strictly greater than `timeoutLimit`; when the two are equal it returns false. -/
theorem checkCommunicationTimeout_iff (intBits : Nat) (s : ErrorHandler)
    (now lastComTime timeoutLimit : Nat) :
    ((checkCommunicationTimeout intBits s lastComTime timeoutLimit now).1 = true ↔
      ((now : Int) - (lastComTime : Int)) % 4294967296 > (timeoutLimit : Int)) ∧
    (((now : Int) - (lastComTime : Int)) % 4294967296 = (timeoutLimit : Int) →
      (checkCommunicationTimeout intBits s lastComTime timeoutLimit now).1 = false) := by
  have h : (checkCommunicationTimeout intBits s lastComTime timeoutLimit now).1 = true ↔
      ((now : Int) - (lastComTime : Int)) % 4294967296 > (timeoutLimit : Int) := by
    rw [← subULong_cast]
    unfold checkCommunicationTimeout
    by_cases ht : subULong now lastComTime > timeoutLimit
    · have : ((subULong now lastComTime : Nat) : Int) > timeoutLimit := by exact_mod_cast ht
      simp [ht, this]
    · have : ¬ ((subULong now lastComTime : Nat) : Int) > timeoutLimit := by
        intro h'; exact ht (by exact_mod_cast h')
      simp [ht, this]
  refine ⟨h, ?_⟩
  intro he
  rw [← Bool.not_eq_true, h]
  omega

/-! ### Counters under `setError` -/

theorem getErrorCount_setError_ge (intBits : Nat) (s : ErrorHandler) (code : ErrorCode)
    (active : Bool) (millis : Nat) (k : ErrorCode)
    (hhi : getErrorCount s k < intMax intBits) :
    getErrorCount s k ≤ getErrorCount (setError intBits s code active millis) k := by
  cases active
  · exact Int.le_refl _
  · simp only [setError, getErrorCount, if_true] at *
    by_cases hk : code.toNat = k.toNat
    · rw [← hk] at hhi ⊢
      by_cases hlen : code.toNat < s._errorCounts.length
      · rw [getD_set_same _ _ _ hlen]
        exact le_incInt intBits _ hhi
      · rw [List.set_eq_of_length_le (Nat.le_of_not_lt hlen)]
    · rw [getD_set_other _ _ _ _ hk]

/-- Claim C11: for each of the four checks, on every state, inputs and clock reading,
the error state after the call (current error, start time, every counter, recovery flag)
is the prior one when the check returns false, and is that of `setError` applied to the
prior state with the kind of the check (`SENSOR_ERROR`, `CALIBRATION_ERROR`,
`BUTTON_ERROR`, `COMMUNICATION_ERROR` respectively) at the same clock reading when the
check returns true. -/
theorem check_frame_or_setError (intBits : Nat) (s : ErrorHandler) (b : ButtonStatics)
    (rawValue : Int) (previousRaw : List Int) (sampleCount : Int)
    (minValue maxValue : Int) (isCalibrated : Bool)
    (buttonState : Bool) (stuckDuration : Nat)
    (lastComTime timeoutLimit : Nat) (millis : Nat) :
    (checkSensorError intBits s rawValue previousRaw sampleCount millis).2 =
      (if (checkSensorError intBits s rawValue previousRaw sampleCount millis).1 = true
        then setError intBits s .SENSOR_ERROR true millis else s) ∧
    (checkCalibrationData intBits s minValue maxValue isCalibrated millis).2 =
      (if (checkCalibrationData intBits s minValue maxValue isCalibrated millis).1 = true
        then setError intBits s .CALIBRATION_ERROR true millis else s) ∧
    (checkButtonStuck intBits s b buttonState stuckDuration millis).2.1 =
      (if (checkButtonStuck intBits s b buttonState stuckDuration millis).1 = true
        then setError intBits s .BUTTON_ERROR true millis else s) ∧
    (checkCommunicationTimeout intBits s lastComTime timeoutLimit millis).2 =
      (if (checkCommunicationTimeout intBits s lastComTime timeoutLimit millis).1 = true
        then setError intBits s .COMMUNICATION_ERROR true millis else s) := by
  refine ⟨?_, ?_, ?_, ?_⟩
  · cases h : (isStuckLoop rawValue previousRaw 0 sampleCount.toNat ||
        (decide (rawValue < 0) || decide (rawValue > 1023)))
    · simp only [checkSensorError, h, Bool.false_eq_true, if_false]
    · simp only [checkSensorError, h, if_true]
  · cases isCalibrated
    · simp only [checkCalibrationData, Bool.false_eq_true, if_false]
    · cases h : (decide (minValue ≥ maxValue) ||
          decide (subInt intBits maxValue minValue < 50))
      · simp only [checkCalibrationData, h, Bool.false_eq_true, if_false, if_true]
      · simp only [checkCalibrationData, h, if_true]
  · cases h1 : (buttonState != b.lastButtonState)
    · cases buttonState
      · simp only [checkButtonStuck, h1, Bool.false_eq_true, if_false]
      · by_cases h2 : subULong millis b.buttonPressStartTime > stuckDuration
        · simp only [checkButtonStuck, h1, h2, Bool.false_eq_true, if_false, if_true]
        · simp only [checkButtonStuck, h1, h2, Bool.false_eq_true, if_false, if_true]
    · simp only [checkButtonStuck, h1, Bool.false_eq_true, if_false, if_true]
  · by_cases h : subULong millis lastComTime > timeoutLimit
    · simp only [checkCommunicationTimeout, h, if_true]
    · simp only [checkCommunicationTimeout, h, Bool.false_eq_true, if_false]

/-- Claim C12: take the counters as non-overflowing, that is, the counter of `k` is below
`INT_MAX` whenever an operation starts.  Then for every error kind `k` and every
operation (`begin`, `setError` with either flag, `clearError`, `handleError`, the four
checks) applied to any state with any inputs, the count of `k` afterwards is at least the
count before; hence no sequence of operations after construction resets or decrements a
counter. -/
theorem getErrorCount_monotone (intBits : Nat) (w : World) (k : ErrorCode) :
    (∀ op : Op, getErrorCount w.handler k < intMax intBits →
      getErrorCount w.handler k ≤ getErrorCount (op.apply intBits w).handler k) ∧
    (∀ ops : List Op,
      (∀ n : Nat, n < ops.length →
        getErrorCount (runOps intBits w (ops.take n)).handler k < intMax intBits) →
      getErrorCount w.handler k ≤ getErrorCount (runOps intBits w ops).handler k) := by
  have step : ∀ (w : World) (op : Op), getErrorCount w.handler k < intMax intBits →
      getErrorCount w.handler k ≤ getErrorCount (op.apply intBits w).handler k := by
    intro w op hhi
    cases op with
    | begin => exact Int.le_refl _
    | setError code active millis => exact getErrorCount_setError_ge _ _ _ _ _ _ hhi
    | clearError => exact Int.le_refl _
    | handleError millis =>
      simp only [Op.apply, handleError]
      split
      · split <;> exact Int.le_refl _
      · exact Int.le_refl _
    | checkSensorError rawValue previousRaw sampleCount millis =>
      simp only [Op.apply, checkSensorError]
      split
      · exact getErrorCount_setError_ge _ _ _ _ _ _ hhi
      · exact Int.le_refl _
    | checkCalibrationData minValue maxValue isCalibrated millis =>
      simp only [Op.apply, checkCalibrationData]
      split
      · split
        · exact getErrorCount_setError_ge _ _ _ _ _ _ hhi
        · exact Int.le_refl _
      · exact Int.le_refl _
    | checkButtonStuck buttonState stuckDuration millis =>
      simp only [Op.apply, checkButtonStuck]
      split
      · exact Int.le_refl _
      · split
        · split
          · exact getErrorCount_setError_ge _ _ _ _ _ _ hhi
          · exact Int.le_refl _
        · exact Int.le_refl _
    | checkCommunicationTimeout lastComTime timeoutLimit millis =>
      simp only [Op.apply, checkCommunicationTimeout]
      split
      · exact getErrorCount_setError_ge _ _ _ _ _ _ hhi
      · exact Int.le_refl _
  refine ⟨step w, ?_⟩
  intro ops
  induction ops generalizing w with
  | nil => intro _; exact Int.le_refl _
  | cons op ops ih =>
    intro hno
    have h0 : getErrorCount w.handler k < intMax intBits := hno 0 (by simp)
    have htail : ∀ n : Nat, n < ops.length →
        getErrorCount (runOps intBits (op.apply intBits w) (ops.take n)).handler k
          < intMax intBits := by
      intro n hn
      exact hno (n + 1) (by simp; omega)
    exact Int.le_trans (step w op h0) (ih (op.apply intBits w) htail)

/-- Claim C12 on a 16-bit `int`, from the freshly constructed object, for the counter of
`SENSOR_ERROR` along a `setError`, a `handleError` and a flagging `checkSensorError`. -/
theorem getErrorCount_monotone_witness :
    (∀ n : Nat, n < [Op.setError .SENSOR_ERROR true 1, Op.handleError 2,
          Op.checkSensorError 1500 [1, 2, 3] 3 4].length →
      getErrorCount (runOps 16 World.initial
        ([Op.setError .SENSOR_ERROR true 1, Op.handleError 2,
          Op.checkSensorError 1500 [1, 2, 3] 3 4].take n)).handler .SENSOR_ERROR
        < intMax 16) ∧
    getErrorCount World.initial.handler .SENSOR_ERROR ≤
      getErrorCount (runOps 16 World.initial
        [Op.setError .SENSOR_ERROR true 1, Op.handleError 2,
          Op.checkSensorError 1500 [1, 2, 3] 3 4]).handler .SENSOR_ERROR :=
  ⟨by decide,
    (getErrorCount_monotone 16 World.initial .SENSOR_ERROR).2
      [Op.setError .SENSOR_ERROR true 1, Op.handleError 2,
        Op.checkSensorError 1500 [1, 2, 3] 3 4] (by decide)⟩

/-- Claim C13: the enumerators have the values 0, 1, 2, 3, 4, 5 and 99; for every error
code the index used by `setError` and `getErrorCount` lies in `[0, 99]`, so on an object
with its 100 counters the access is inside the array (the read returns the stored entry,
the write lands in it with the incremented counter, which is the old value plus one when
that was below `INT_MAX`, and keeps the 100 entries), and distinct codes use distinct
slots. -/
theorem errorCounts_index_in_bounds (intBits : Nat) (s : ErrorHandler) (c : ErrorCode)
    (millis : Nat) (hwf : s.WellFormed) :
    (ErrorCode.NO_ERROR.toNat = 0 ∧ ErrorCode.SENSOR_ERROR.toNat = 1 ∧
      ErrorCode.CALIBRATION_ERROR.toNat = 2 ∧ ErrorCode.BUTTON_ERROR.toNat = 3 ∧
      ErrorCode.COMMUNICATION_ERROR.toNat = 4 ∧ ErrorCode.MEMORY_ERROR.toNat = 5 ∧
      ErrorCode.SYSTEM_ERROR.toNat = 99) ∧
    (0 ≤ c.toNat ∧ c.toNat ≤ 99) ∧
    c.toNat < s._errorCounts.length ∧
    s._errorCounts[c.toNat]? = some (getErrorCount s c) ∧
    (setError intBits s c true millis)._errorCounts.length = 100 ∧
    (setError intBits s c true millis)._errorCounts[c.toNat]?
      = some (incInt intBits (getErrorCount s c)) ∧
    (0 < intBits → intMin intBits ≤ getErrorCount s c →
      getErrorCount s c < intMax intBits →
      (setError intBits s c true millis)._errorCounts[c.toNat]?
        = some (getErrorCount s c + 1)) ∧
    (∀ d : ErrorCode, d ≠ c → d.toNat ≠ c.toNat) := by
  have hlen : s._errorCounts.length = 100 := hwf
  have hc : c.toNat < 100 := c.toNat_lt
  have hcl : c.toNat < s._errorCounts.length := by rw [hlen]; exact hc
  have hwrite : (setError intBits s c true millis)._errorCounts[c.toNat]?
      = some (incInt intBits (getErrorCount s c)) := by
    simp [setError, getErrorCount, List.getElem?_set, hcl]
  refine ⟨⟨rfl, rfl, rfl, rfl, rfl, rfl, rfl⟩, ⟨Nat.zero_le _, by omega⟩, hcl, ?_, ?_,
    hwrite, ?_, ?_⟩
  · simp [getErrorCount, List.getD_eq_getElem?_getD, List.getElem?_eq_getElem hcl]
  · simp [setError, hlen]
  · intro hbits hlo hhi
    rw [hwrite, incInt_of_lt_intMax intBits _ hbits hlo hhi]
  · intro d hd h
    exact hd (ErrorCode.toNat_inj h)

/-- Claim C13 at the freshly constructed object and the code `SYSTEM_ERROR`, whose index
99 is the last slot. -/
theorem errorCounts_index_in_bounds_witness :
    ctor.WellFormed ∧
    ErrorCode.SYSTEM_ERROR.toNat < ctor._errorCounts.length ∧
    (setError 16 ctor .SYSTEM_ERROR true 3)._errorCounts[ErrorCode.SYSTEM_ERROR.toNat]?
      = some (getErrorCount ctor .SYSTEM_ERROR + 1) :=
  ⟨by decide, (errorCounts_index_in_bounds 16 ctor .SYSTEM_ERROR 3 (by decide)).2.2.1,
    (errorCounts_index_in_bounds 16 ctor .SYSTEM_ERROR 3 (by decide)).2.2.2.2.2.2.1
      (by decide) (by decide) (by decide)⟩

end ErrorHandler

end LeverFirmware
